import Mathlib

/- Verification development for the weekly reservation digest job
   (supabase/functions/weekly-email/index.ts).

   Shallow embedding conventions:
   - Calendar dates are day numbers (Nat); the anchor is chosen so that a day
     number that is 0 mod 7 is a Sunday, matching the JavaScript getDay
     convention (Sunday = 0, Monday = 1, ...). The day-of-month (getDate,
     always at least 1) is carried separately where the source uses it;
     setDate(n) on a date whose day-of-month is dom moves the date by n - dom
     days (JavaScript rolls months on overflow and underflow, which is exactly
     this shift in day numbers).
   - The two upstream fetches are inputs to the handler: an Except carrying
     either the error message or the (possibly null, hence Option) row list.
   - The runtime locale date formatter toLocaleDateString is abstracted as an
     arbitrary function fmt : String -> String passed to the renderer; no claim
     depends on its output.
   - JSON response bodies are flat field lists (every body built by the source
     is a flat object literal).
   - The dispatch fan-out (Promise.allSettled over sendEmail) is embedded as a
     terminal-outcome assignment outcome : User -> Bool; the RunResult records
     which sendEmail calls were issued and which document was rendered. -/

/-- Weekday index of day number t, JavaScript getDay convention
(source line 55: today.getDay(), Sunday = 0 under the day-0-is-Sunday anchor). -/
def jsGetDay (t : Nat) : Nat := t % 7

/-- JavaScript logical-or on numbers: the left operand unless it is 0 (the
only falsy Nat), else the right one. -/
def jsOr (a b : Nat) : Nat := if a = 0 then b else a

/-- The argument passed to setDate on source line 56 with JavaScript
precedence: % binds tighter than +, which binds tighter than ||, so the line
today.getDate() + (7 - today.getDay() + 1) % 7 || 7
parses as (getDate() + ((7 - getDay() + 1) % 7)) || 7 — the or-else wraps the
whole sum, not the offset alone. dom is the current day-of-month (getDate). -/
def setDateArg (dom t : Nat) : Nat := jsOr (dom + (7 - jsGetDay t + 1) % 7) 7

/-- The window start computed on source lines 54-56: setDate with the argument
of line 56 moves the date by that argument minus the current day-of-month. -/
def nextMonday (dom t : Nat) : Nat := t + (setDateArg dom t - dom)

/-- The window end computed on source lines 57-58: start plus 6 days. -/
def nextSunday (dom t : Nat) : Nat := nextMonday dom t + 6

/-- Reservation row (source interface, lines 25-31). -/
structure Reservation where
  date_res : String
  horaire : String
  nom : String
  prenom : String
  notes : String
deriving DecidableEq

/-- Recipient row (source interface User, lines 33-36). -/
structure User where
  email : String
  nom : Option String
deriving DecidableEq

/-- Permissive cross-origin headers (source lines 19-23). -/
def corsHeaders : List (String × String) :=
  [("Access-Control-Allow-Origin", "*"),
   ("Access-Control-Allow-Methods", "GET, POST, PUT, DELETE, OPTIONS"),
   ("Access-Control-Allow-Headers", "Content-Type, Authorization")]

/-- Headers of every JSON response: the cors headers spread plus Content-Type
(source, e.g. line 86). -/
def jsonHeaders : List (String × String) :=
  corsHeaders ++ [("Content-Type", "application/json")]

/-- Value of one JSON field; the source only ever emits strings and numbers. -/
inductive JsonVal where
  | str (s : String)
  | num (n : Nat)
deriving DecidableEq

/-- An HTTP response as the handler builds it: a status (Response default 200
unless given), an optional flat JSON object body, and headers. -/
structure Response where
  status : Nat
  body : Option (List (String × JsonVal))
  headers : List (String × String)
deriving DecidableEq

/-- One run of the handler: the response it returns, the rendered document if
generateWeeklyEmailContent was reached (none when rendering was skipped), and
the list of recipients for which a sendEmail call was issued. -/
structure RunResult where
  response : Response
  rendered : Option String
  attempts : List User
deriving DecidableEq

/-- formatHoraire (source lines 135-137): the evening label exactly for the
value nuit, the afternoon label for everything else. -/
def formatHoraire (horaire : String) : String :=
  if horaire = "nuit" then "Soirée (20h30-01h00)" else "Après-midi (15h30-20h00)"

/-- Character-level embedding of notes.replace(/\n/g, ' • ') (source line 183):
the pattern is the single character newline, so the global replace maps each
newline to the three characters space, bullet, space. -/
def replaceNewlineChars : List Char → List Char
  | [] => []
  | c :: cs =>
    if c = '\n' then ' ' :: '•' :: ' ' :: replaceNewlineChars cs
    else c :: replaceNewlineChars cs

/-- String form of the newline replacement of source line 183. -/
def replaceNewlines (s : String) : String := String.mk (replaceNewlineChars s.data)

/-- Template text of the initial content literal (source lines 139-163) up to
the interpolation of formatDate(startDate). Braces of the CSS are escaped. -/
def htmlHead : String :=
  "\n    <html>\n      <head>\n        <meta charset=\"utf-8\">\n        <style>\n          body \x7b font-family: Arial, sans-serif; line-height: 1.6; color: #333; \x7d\n          .header \x7b background: linear-gradient(135deg, #FFD700, #FFA500); padding: 20px; text-align: center; color: #000; \x7d\n          .content \x7b padding: 20px; \x7d\n          .reservation \x7b background: #f9f9f9; margin: 10px 0; padding: 15px; border-left: 4px solid #FFD700; \x7d\n          .date \x7b font-weight: bold; color: #2c3e50; font-size: 1.1em; \x7d\n          .details \x7b margin-top: 8px; \x7d\n          .horaire \x7b color: #e67e22; font-weight: 600; \x7d\n          .client \x7b color: #27ae60; font-weight: 600; \x7d\n          .notes \x7b color: #7f8c8d; font-style: italic; margin-top: 5px; \x7d\n          .footer \x7b background: #2c3e50; color: white; padding: 15px; text-align: center; margin-top: 20px; \x7d\n        </style>\n      </head>\n      <body>\n        <div class=\"header\">\n          <h1>🎭 Salle des Fêtes Mozart</h1>\n          <h2>Réservations de la semaine prochaine</h2>\n          <p>"

/-- Template text between formatDate(startDate) and formatDate(endDate)
(source line 160). -/
def headerDatesSep : String := " - "

/-- Template text after formatDate(endDate) up to the end of the initial
literal (source lines 160-163). -/
def headerClose : String := "</p>\n        </div>\n        <div class=\"content\">\n  "

/-- The document prefix built by the first content literal (source lines
139-163), with the window dates interpolated through the abstract formatter. -/
def weeklyHeader (fmt : String → String) (startDate endDate : String) : String :=
  htmlHead ++ fmt startDate ++ headerDatesSep ++ fmt endDate ++ headerClose

/-- Text of the empty-week literal before its message line (source lines
166-168). -/
def noResPre : String :=
  "\n      <div class=\"reservation\">\n        <p style=\"text-align: center; color: #27ae60; font-size: 1.2em;\">\n          "

/-- The nothing-scheduled message line (source line 169). -/
def noResMsg : String := "🎉 Aucune réservation prévue pour la semaine prochaine"

/-- Text of the empty-week literal after its message line (source lines
170-172). -/
def noResPost : String := "\n        </p>\n      </div>\n    "

/-- The block appended when the reservation list is empty (source lines
166-172). -/
def noReservationBlock : String := noResPre ++ noResMsg ++ noResPost

/-- Per-reservation template up to the date interpolation (source lines
176-177). -/
def entryPre : String :=
  "\n        <div class=\"reservation\">\n          <div class=\"date\">📅 "

/-- Per-reservation template between the date and the horaire label (source
lines 177-179). -/
def entryAfterDate : String :=
  "</div>\n          <div class=\"details\">\n            <div class=\"horaire\">🕒 "

/-- Per-reservation template between the horaire label and the client names
(source lines 179-180). -/
def entryAfterHoraire : String := "</div>\n            <div class=\"client\">👤 "

/-- Per-reservation template between the client names and the notes fragment
(source lines 180-181). -/
def entryAfterClient : String := "</div>\n            "

/-- Per-reservation template after the notes fragment (source lines 181-184). -/
def entryPost : String := "\n          </div>\n        </div>\n      "

/-- The notes fragment (source line 181): a notes div with newlines replaced
when notes is truthy (a non-empty string), nothing otherwise. -/
def notesHtml (r : Reservation) : String :=
  if r.notes ≠ "" then
    "<div class=\"notes\">📝 " ++ replaceNewlines r.notes ++ "</div>"
  else ""

/-- One reservation block, the literal appended per forEach iteration
(source lines 175-185). -/
def renderReservation (fmt : String → String) (r : Reservation) : String :=
  entryPre ++ fmt r.date_res ++ entryAfterDate ++ formatHoraire r.horaire ++
    entryAfterHoraire ++ r.prenom ++ " " ++ r.nom ++ entryAfterClient ++
    notesHtml r ++ entryPost

/-- Document suffix appended last (source lines 189-197). -/
def weeklyFooter : String :=
  "\n        </div>\n        <div class=\"footer\">\n          <p>Salle des Fêtes Mozart - Système automatique de notification</p>\n          <p>📧 E-mail envoyé automatiquement chaque dimanche</p>\n        </div>\n      </body>\n    </html>\n  "

/-- generateWeeklyEmailContent (source lines 125-200): header, then either the
nothing-scheduled block (length 0) or one block per reservation appended in
list order, then the footer. -/
def generateWeeklyEmailContent (fmt : String → String) (reservations : List Reservation)
    (startDate endDate : String) : String :=
  let content := weeklyHeader fmt startDate endDate
  let content :=
    if reservations.length == 0 then
      content ++ noReservationBlock
    else
      reservations.foldl (fun c r => c ++ renderReservation fmt r) content
  content ++ weeklyFooter

/-- Order on reservation rows used by the query: ascending date_res. -/
def resLe (a b : Reservation) : Prop := a.date_res ≤ b.date_res

instance : DecidableRel resLe :=
  fun a b => inferInstanceAs (Decidable (a.date_res ≤ b.date_res))

instance : IsTotal Reservation resLe := ⟨fun a b => le_total a.date_res b.date_res⟩

instance : IsTrans Reservation resLe := ⟨fun _ _ _ h h2 => le_trans h h2⟩

/-- Modelled from the spec: the execution of the reservation query that the
source builds on lines 64-69 (.gte date_res startDate, .lte date_res endDate,
.order date_res ascending) happens in the external data store, which is not
part of this repository. Following the spec (section 6: read reservations
filtered by the inclusive date range [start, end], ordered by date ascending),
the store is a row list and the query filters it by the closed range and sorts
the survivors by date_res. -/
def queryReservations (store : List Reservation) (startDate endDate : String) :
    List Reservation :=
  List.insertionSort resLe
    (store.filter fun r => decide (startDate ≤ r.date_res) && decide (r.date_res ≤ endDate))

/-- The catch-block response (source lines 113-122): status 500, a JSON body
with the error message, cors plus JSON headers. -/
def errorResponse (msg : String) : Response :=
  { status := 500, body := some [("error", JsonVal.str msg)], headers := jsonHeaders }

/-- The request handler (source lines 38-123), embedded over its effect
inputs. method is the HTTP method; fmt abstracts the locale date formatter;
startDate and endDate are the window bounds of lines 59-60; reservationsRes
and usersRes are the settled upstream fetches (error message, or a nullable
row list); outcome assigns each recipient the terminal state of its sendEmail
promise (true = fulfilled, false = rejected), the allSettled semantics of
line 96. The thrown fetch errors of lines 71-73 and 79-81 land in the catch
block of lines 113-122. -/
def weeklyHandler (method : String) (fmt : String → String) (startDate endDate : String)
    (reservationsRes : Except String (Option (List Reservation)))
    (usersRes : Except String (Option (List User)))
    (outcome : User → Bool) : RunResult :=
  if method = "OPTIONS" then
    { response := { status := 200, body := none, headers := corsHeaders },
      rendered := none, attempts := [] }
  else
    match reservationsRes with
    | Except.error msg =>
      { response := errorResponse ("Erreur récupération réservations: " ++ msg),
        rendered := none, attempts := [] }
    | Except.ok reservations =>
      match usersRes with
      | Except.error msg =>
        { response := errorResponse ("Erreur récupération utilisateurs: " ++ msg),
          rendered := none, attempts := [] }
      | Except.ok users =>
        if users.isNone || (users.getD []).length == 0 then
          { response := { status := 200,
                          body := some [("message", JsonVal.str "Aucun utilisateur trouvé")],
                          headers := jsonHeaders },
            rendered := none, attempts := [] }
        else
          let emailContent :=
            generateWeeklyEmailContent fmt (reservations.getD []) startDate endDate
          let us := users.getD []
          let results := us.map outcome
          let successCount := results.count true
          let failureCount := results.count false
          { response := { status := 200,
                          body := some [("message", JsonVal.str "E-mails hebdomadaires envoyés"),
                                        ("success", JsonVal.num successCount),
                                        ("failures", JsonVal.num failureCount),
                                        ("reservations", JsonVal.num ((reservations.getD []).length))],
                          headers := jsonHeaders },
            rendered := some emailContent, attempts := us }

/-- Definition following the words of the claim (not the source), for the
refinement check of the empty-recipient result: a body reports zero succeeded
and zero failed when it is a JSON object carrying a success field equal to 0
and a failures field equal to 0. -/
def reportsZeroCounts (body : Option (List (String × JsonVal))) : Bool :=
  match body with
  | some fields =>
    (fields.lookup "success" == some (JsonVal.num 0)) &&
      (fields.lookup "failures" == some (JsonVal.num 0))
  | none => false

/-- Concrete reservation used by witnesses: date b sits in the window
between a and c. -/
def wRes : Reservation := { date_res := "b", horaire := "nuit", nom := "N", prenom := "P", notes := "" }

/-- Concrete store holding just wRes. -/
def wStore : List Reservation := [wRes]

/-- Concrete reservation whose notes hold an embedded newline. -/
def wResNotes : Reservation :=
  { date_res := "b", horaire := "jour", nom := "N", prenom := "P", notes := "a\nb" }

/-- Concrete recipient list of two users for witnesses. -/
def wUsers : List User := [{ email := "u1@example.org", nom := none },
                           { email := "u2@example.org", nom := some "M" }]

/-- Helper: String.join distributes over cons. -/
theorem string_join_cons (a : String) (l : List String) :
    String.join (a :: l) = a ++ String.join l := by
  apply String.ext
  simp [String.data_join, String.data_append]

/-- Helper: a foldl that appends f of each element equals the initial string
followed by the join of the mapped list. -/
theorem foldl_append_eq_join {α : Type} (f : α → String) :
    ∀ (l : List α) (init : String),
      l.foldl (fun c r => c ++ f r) init = init ++ String.join (l.map f)
  | [], init => by simp [String.join]
  | x :: xs, init => by
    have ih := foldl_append_eq_join f xs (init ++ f x)
    simp only [List.foldl_cons, List.map_cons] at *
    rw [ih, string_join_cons, String.append_assoc]

/-- Helper: over booleans, occurrences of true and of false add up to the
length. -/
theorem count_true_add_count_false (l : List Bool) :
    l.count true + l.count false = l.length := by
  induction l with
  | nil => rfl
  | cons b t ih => cases b <;> simp [List.count_cons] <;> omega

/-- Helper: the newline replacement emits no newline character. -/
theorem replaceNewlineChars_no_newline (l : List Char) :
    '\n' ∉ replaceNewlineChars l := by
  induction l with
  | nil => simp [replaceNewlineChars]
  | cons c cs ih =>
    by_cases h : c = '\n'
    · subst h
      simp [replaceNewlineChars, ih]
    · intro hmem
      simp only [replaceNewlineChars, if_neg h, List.mem_cons] at hmem
      rcases hmem with hc | hrest
      · exact h hc.symm
      · exact ih hrest

/-- Helper: each newline of the input contributes exactly one bullet to the
replacement output. -/
theorem replaceNewlineChars_count_bullet (l : List Char) :
    (replaceNewlineChars l).count '•' = l.count '\n' + l.count '•' := by
  induction l with
  | nil => rfl
  | cons c cs ih =>
    by_cases h : c = '\n' <;>
      simp [replaceNewlineChars, h, List.count_cons, ih] <;> omega

/-- C1: the claim fails on the code — evaluation at the failing input. Under
JavaScript precedence the or-else 7 of source line 56 wraps getDate() plus the
offset; that sum is at least 1, hence always truthy, so the or-else never
fires. Invoking on a Monday (day 8 under the Sunday-0 anchor, day-of-month 15)
adds offset (7 - 1 + 1) % 7 = 0 and leaves the date unchanged: the window
starts on the invocation Monday itself — not strictly after it and not 7 days
later as the claim, and the intent witnessed by the dead or-else, require. On
any other weekday the start is the next Monday strictly after, as at the
Tuesday day 2 also evaluated here. -/
theorem c1_monday_window_starts_same_day :
    jsGetDay 8 = 1 ∧
    nextMonday 15 8 = 8 ∧
    ¬ 8 < nextMonday 15 8 ∧
    nextSunday 15 8 = 14 ∧
    nextMonday 10 2 = 8 ∧ 2 < nextMonday 10 2 ∧ nextMonday 10 2 % 7 = 1 := by
  decide

/-- C2 counterexample: a concrete run with both fetches succeeded, one
reservation in the window and an empty recipient list returns the
message-only body; it carries no success and no failures field, so it does
not report zero attempted, zero succeeded, zero failed as the claim states. -/
theorem c2_zero_counts_counterexample :
    (weeklyHandler "POST" id "a" "c" (Except.ok (some wStore)) (Except.ok (some []))
        (fun _ => true)).response.body =
      some [("message", JsonVal.str "Aucun utilisateur trouvé")] ∧
    reportsZeroCounts
      ((weeklyHandler "POST" id "a" "c" (Except.ok (some wStore)) (Except.ok (some []))
          (fun _ => true)).response.body) = false := by
  constructor <;> rfl

/-- C2 amended: for every run in which both fetches succeed and the recipient
list is empty (or null), the job returns immediately with the fixed
message-only 200 response, regardless of the reservation list; no rendering
happens and no dispatch attempt is made. The response carries no count
fields. -/
theorem c2_empty_recipients_short_circuit (method : String) (fmt : String → String)
    (s e : String) (hm : method ≠ "OPTIONS")
    (rs : Option (List Reservation)) (us : Option (List User))
    (hus : (us.getD []).length = 0) (outcome : User → Bool) :
    weeklyHandler method fmt s e (Except.ok rs) (Except.ok us) outcome =
      { response := { status := 200,
                      body := some [("message", JsonVal.str "Aucun utilisateur trouvé")],
                      headers := jsonHeaders },
        rendered := none, attempts := [] } := by
  have hcond : (us.isNone || (us.getD []).length == 0) = true := by
    cases us <;> simp_all
  simp [weeklyHandler, hm, hcond]

/-- C2 witness: the amended short-circuit at a concrete run with one
reservation and an empty recipient list. -/
theorem c2_empty_recipients_witness :
    weeklyHandler "POST" id "a" "c" (Except.ok (some wStore)) (Except.ok (some []))
        (fun _ => true) =
      { response := { status := 200,
                      body := some [("message", JsonVal.str "Aucun utilisateur trouvé")],
                      headers := jsonHeaders },
        rendered := none, attempts := [] } :=
  c2_empty_recipients_short_circuit "POST" id "a" "c" (by decide) (some wStore)
    (some []) (by decide) (fun _ => true)

/-- C3: a failing reservations fetch, or a failing users fetch, aborts the run
before any dispatch: no sendEmail call, no rendered digest, and the caller
gets the structured JSON error body with status 500 instead of a success
payload. -/
theorem c3_fetch_failure_aborts (method : String) (fmt : String → String) (s e : String)
    (hm : method ≠ "OPTIONS") (msg : String)
    (usersRes : Except String (Option (List User))) (outcome : User → Bool) :
    (weeklyHandler method fmt s e (Except.error msg) usersRes outcome =
      { response := errorResponse ("Erreur récupération réservations: " ++ msg),
        rendered := none, attempts := [] }) ∧
    (∀ rs : Option (List Reservation),
      weeklyHandler method fmt s e (Except.ok rs) (Except.error msg) outcome =
        { response := errorResponse ("Erreur récupération utilisateurs: " ++ msg),
          rendered := none, attempts := [] }) ∧
    (errorResponse ("Erreur récupération réservations: " ++ msg)).status = 500 ∧
    (errorResponse ("Erreur récupération réservations: " ++ msg)).body =
      some [("error", JsonVal.str ("Erreur récupération réservations: " ++ msg))] := by
  refine ⟨?_, fun rs => ?_, rfl, rfl⟩ <;> simp [weeklyHandler, hm]

/-- C3 witness: the reservations-fetch failure clause at a concrete run. -/
theorem c3_fetch_failure_witness :
    weeklyHandler "POST" id "a" "c" (Except.error "boom") (Except.ok (some wUsers))
        (fun _ => true) =
      { response := errorResponse ("Erreur récupération réservations: " ++ "boom"),
        rendered := none, attempts := [] } :=
  (c3_fetch_failure_aborts "POST" id "a" "c" (by decide) "boom"
    (Except.ok (some wUsers)) (fun _ => true)).1

/-- C5: on a successful run with a non-empty recipient list, one dispatch
attempt is issued per recipient whatever the outcome assignment says (the
attempts list is the full recipient list, so failed recipients never block the
others), the reported success and failure tallies are the counts of fulfilled
and rejected outcomes, and succeeded plus failed equals total attempts equals
the recipient count. -/
theorem c5_dispatch_aggregation (method : String) (fmt : String → String) (s e : String)
    (hm : method ≠ "OPTIONS") (rs : Option (List Reservation))
    (us : List User) (hus : us ≠ []) (outcome : User → Bool) :
    (weeklyHandler method fmt s e (Except.ok rs) (Except.ok (some us)) outcome).attempts
      = us ∧
    (weeklyHandler method fmt s e (Except.ok rs) (Except.ok (some us)) outcome).response.body
      = some [("message", JsonVal.str "E-mails hebdomadaires envoyés"),
              ("success", JsonVal.num ((us.map outcome).count true)),
              ("failures", JsonVal.num ((us.map outcome).count false)),
              ("reservations", JsonVal.num ((rs.getD []).length))] ∧
    (us.map outcome).length = us.length ∧
    (us.map outcome).count true + (us.map outcome).count false = us.length := by
  have hlen : us.length ≠ 0 := by simpa [List.length_eq_zero] using hus
  refine ⟨?_, ?_, List.length_map us outcome, ?_⟩
  · simp [weeklyHandler, hm, hlen]
  · simp [weeklyHandler, hm, hlen]
  · rw [count_true_add_count_false, List.length_map]

/-- C5 witness: the aggregation equalities at a concrete run with two
recipients of which the second fails. -/
theorem c5_dispatch_aggregation_witness :
    (weeklyHandler "POST" id "a" "c" (Except.ok (some wStore)) (Except.ok (some wUsers))
        (fun u => u.nom == none)).attempts = wUsers :=
  (c5_dispatch_aggregation "POST" id "a" "c" (by decide) (some wStore) wUsers
    (by decide) (fun u => u.nom == none)).1

/-- C4: the non-empty reservation list handed to rendering (the modelled query
result) holds only reservations with date in the closed window [s, e], is
ordered by date ascending, and the rendered document is the header followed by
exactly one rendered block per list element, in list order, followed by the
footer — so each queried reservation appears exactly once, in ascending date
order, and no other reservation block appears. -/
theorem c4_window_render (store : List Reservation) (fmt : String → String) (s e : String)
    (h : queryReservations store s e ≠ []) :
    (∀ r ∈ queryReservations store s e, s ≤ r.date_res ∧ r.date_res ≤ e) ∧
    List.Pairwise (fun a b : Reservation => a.date_res ≤ b.date_res)
      (queryReservations store s e) ∧
    generateWeeklyEmailContent fmt (queryReservations store s e) s e =
      weeklyHeader fmt s e ++
        String.join ((queryReservations store s e).map (renderReservation fmt)) ++
        weeklyFooter := by
  refine ⟨?_, ?_, ?_⟩
  · intro r hr
    unfold queryReservations at hr
    have hmem := (List.perm_insertionSort resLe _).mem_iff.mp hr
    rw [List.mem_filter] at hmem
    have hcond := hmem.2
    simp only [Bool.and_eq_true, decide_eq_true_eq] at hcond
    exact hcond
  · have hs := List.sorted_insertionSort resLe
      (store.filter fun r => decide (s ≤ r.date_res) && decide (r.date_res ≤ e))
    unfold queryReservations
    exact hs
  · have hlen : ((queryReservations store s e).length == 0) = false := by
      simp [List.length_eq_zero, h]
    have hjoin := foldl_append_eq_join (renderReservation fmt)
      (queryReservations store s e) (weeklyHeader fmt s e)
    simp [generateWeeklyEmailContent, hlen, hjoin]

/-- C4 witness: the ascending-order clause at a concrete one-row store whose
date lies inside the window. -/
theorem c4_window_render_witness :
    List.Pairwise (fun a b : Reservation => a.date_res ≤ b.date_res)
      (queryReservations wStore "a" "c") :=
  (c4_window_render wStore id "a" "c"
    (by simp [queryReservations, wStore, wRes, List.insertionSort, List.orderedInsert])).2.1

/-- C6: for every window, the document rendered from an empty reservation list
is the header, then the nothing-scheduled block and nothing else (in
particular no reservation block), then the footer; the nothing-scheduled
message occurs in the document. -/
theorem c6_nothing_scheduled (fmt : String → String) (s e : String) :
    generateWeeklyEmailContent fmt [] s e =
      weeklyHeader fmt s e ++ noReservationBlock ++ weeklyFooter ∧
    ∃ pre post, generateWeeklyEmailContent fmt [] s e = pre ++ noResMsg ++ post := by
  constructor
  · rfl
  · refine ⟨weeklyHeader fmt s e ++ noResPre, noResPost ++ weeklyFooter, ?_⟩
    show weeklyHeader fmt s e ++ noReservationBlock ++ weeklyFooter = _
    simp only [noReservationBlock, String.append_assoc]

/-- C7: every rendered reservation block shows, in order, the formatted date,
the human-readable time-slot label, the first and the last name, and the notes
fragment; the fragment is empty exactly when notes is empty, otherwise it is a
notes div whose text is the notes with each embedded newline replaced by the
bullet separator: the replacement output has no newline left and carries one
bullet per replaced newline. -/
theorem c7_entry_fields (fmt : String → String) (r : Reservation) :
    renderReservation fmt r =
      entryPre ++ fmt r.date_res ++ entryAfterDate ++ formatHoraire r.horaire ++
        entryAfterHoraire ++ r.prenom ++ " " ++ r.nom ++ entryAfterClient ++
        notesHtml r ++ entryPost ∧
    (r.notes = "" → notesHtml r = "") ∧
    (r.notes ≠ "" →
      notesHtml r = "<div class=\"notes\">📝 " ++ replaceNewlines r.notes ++ "</div>") ∧
    '\n' ∉ (replaceNewlines r.notes).data ∧
    (replaceNewlines r.notes).data.count '•' =
      r.notes.data.count '\n' + r.notes.data.count '•' := by
  refine ⟨rfl, ?_, ?_, ?_, ?_⟩
  · intro h; simp [notesHtml, h]
  · intro h; simp [notesHtml, h]
  · exact replaceNewlineChars_no_newline r.notes.data
  · exact replaceNewlineChars_count_bullet r.notes.data

/-- C7 witness: the notes clause at a concrete reservation whose notes hold an
embedded newline. -/
theorem c7_entry_fields_witness :
    notesHtml wResNotes =
      "<div class=\"notes\">📝 " ++ replaceNewlines wResNotes.notes ++ "</div>" :=
  (c7_entry_fields id wResNotes).2.2.1 (by decide)

/-- C8: every response the handler produces carries the permissive
cross-origin headers, and the pre-flight OPTIONS response is status 200 with
no body and exactly the cors headers. -/
theorem c8_cors_on_every_response (method : String) (fmt : String → String) (s e : String)
    (rRes : Except String (Option (List Reservation)))
    (uRes : Except String (Option (List User))) (outcome : User → Bool) :
    (∀ kv ∈ corsHeaders,
        kv ∈ (weeklyHandler method fmt s e rRes uRes outcome).response.headers) ∧
    (method = "OPTIONS" →
      (weeklyHandler method fmt s e rRes uRes outcome).response =
        { status := 200, body := none, headers := corsHeaders }) := by
  have hh : (weeklyHandler method fmt s e rRes uRes outcome).response.headers = corsHeaders ∨
      (weeklyHandler method fmt s e rRes uRes outcome).response.headers = jsonHeaders := by
    by_cases hopt : method = "OPTIONS"
    · left; simp [weeklyHandler, hopt]
    · rcases rRes with msg | rs
      · right; simp [weeklyHandler, hopt, errorResponse]
      · rcases uRes with msg | us
        · right; simp [weeklyHandler, hopt, errorResponse]
        · by_cases hc : (us.isNone || (us.getD []).length == 0) = true
          · right; simp [weeklyHandler, hopt, hc]
          · right; simp [weeklyHandler, hopt, hc]
  constructor
  · intro kv hkv
    rcases hh with hh | hh
    · rw [hh]; exact hkv
    · rw [hh]; exact List.mem_append_left _ hkv
  · intro hopt
    unfold weeklyHandler
    rw [if_pos hopt]

/-- C8 witness: the OPTIONS clause at a concrete pre-flight request. -/
theorem c8_cors_witness :
    (weeklyHandler "OPTIONS" id "a" "c" (Except.ok none) (Except.ok none)
        (fun _ => true)).response =
      { status := 200, body := none, headers := corsHeaders } :=
  (c8_cors_on_every_response "OPTIONS" id "a" "c" (Except.ok none) (Except.ok none)
    (fun _ => true)).2 rfl

/-- C9: the rendered time-slot label is the evening label exactly when the
stored value is nuit; every other value, enumerated in the spec or not, gets
the afternoon label. -/
theorem c9_format_horaire (h : String) :
    (formatHoraire h = "Soirée (20h30-01h00)" ↔ h = "nuit") ∧
    (h ≠ "nuit" → formatHoraire h = "Après-midi (15h30-20h00)") := by
  by_cases hn : h = "nuit"
  · subst hn
    refine ⟨⟨fun _ => rfl, fun _ => ?_⟩, fun hne => absurd rfl hne⟩
    rw [formatHoraire, if_pos rfl]
  · refine ⟨⟨fun hlab => ?_, fun hh => absurd hh hn⟩, fun _ => ?_⟩
    · rw [formatHoraire, if_neg hn] at hlab
      exact absurd hlab (by decide)
    · rw [formatHoraire, if_neg hn]

/-- C9 witness: a value outside the enumerated set gets the afternoon label. -/
theorem c9_format_horaire_witness :
    formatHoraire "jour" = "Après-midi (15h30-20h00)" :=
  (c9_format_horaire "jour").2 (by decide)

/-- C10: a succeeded fetch with a null payload does not crash the embedded
job: a null recipient list takes the empty-recipient short-circuit (message
body, nothing rendered, zero attempts), and a null reservation list renders
the nothing-scheduled document and reports a reservation count of 0. -/
theorem c10_null_data (method : String) (fmt : String → String) (s e : String)
    (hm : method ≠ "OPTIONS") (outcome : User → Bool) :
    (∀ rs : Option (List Reservation),
      weeklyHandler method fmt s e (Except.ok rs) (Except.ok none) outcome =
        { response := { status := 200,
                        body := some [("message", JsonVal.str "Aucun utilisateur trouvé")],
                        headers := jsonHeaders },
          rendered := none, attempts := [] }) ∧
    (∀ us : List User, us ≠ [] →
      (weeklyHandler method fmt s e (Except.ok none) (Except.ok (some us)) outcome).rendered =
        some (weeklyHeader fmt s e ++ noReservationBlock ++ weeklyFooter) ∧
      (weeklyHandler method fmt s e (Except.ok none) (Except.ok (some us)) outcome).response.body =
        some [("message", JsonVal.str "E-mails hebdomadaires envoyés"),
              ("success", JsonVal.num ((us.map outcome).count true)),
              ("failures", JsonVal.num ((us.map outcome).count false)),
              ("reservations", JsonVal.num 0)] ∧
      (weeklyHandler method fmt s e (Except.ok none) (Except.ok (some us)) outcome).response.status
        = 200) := by
  constructor
  · intro rs
    simp [weeklyHandler, hm]
  · intro us hus
    have hlen : us.length ≠ 0 := by simpa [List.length_eq_zero] using hus
    refine ⟨?_, ?_, ?_⟩ <;> simp [weeklyHandler, hm, hlen, generateWeeklyEmailContent]

/-- C10 witness: the null-recipient clause at a concrete run with a non-empty
reservation list. -/
theorem c10_null_data_witness :
    weeklyHandler "POST" id "a" "c" (Except.ok (some wStore)) (Except.ok none)
        (fun _ => true) =
      { response := { status := 200,
                      body := some [("message", JsonVal.str "Aucun utilisateur trouvé")],
                      headers := jsonHeaders },
        rendered := none, attempts := [] } :=
  (c10_null_data "POST" id "a" "c" (by decide) (fun _ => true)).1 (some wStore)
